import Mathlib

/-!
Shallow embedding of the `resource_security_user_role` lifecycle hooks of the
Nexus Terraform provider (file `resource_security_user_role.go`), together with
the remote entity store they talk to, and proofs about the partial-collection
reconciliation logic: the set-difference block of the delete hook
(`computeRemainderAfterRemoval` in the design document) and the set-equality
comparison of the exists hook (`computeExistence`).

Modelling choices:
* Go slices of strings become `List String`; the `map[string]struct{}`
  membership sets built in the delete and exists hooks are list membership.
* The framework's `*schema.ResourceData` becomes an explicit `ResourceData`
  record; `d.Set(field, v)` is a functional field update and `d.Get(field)`
  reads the current field value (a value written by `Set` is what a later
  `Get` returns). `d.HasChange("roles")` is modelled by the `rolesChanged`
  flag, which the framework sets for an update invocation and which a `Set`
  of a different roles value turns on.
* The API client becomes a `Store`: `getUser` mirrors
  `client.Security.User.Get` returning the Go pair `(entity or nil, error)`
  where a missing user yields `(nil, nil)`, and `updateUser` mirrors
  `client.Security.User.Update` with full-replace semantics. Injected
  failures (`failGet`, `failUpdate`) model transport/auth errors.
* Each hook returns a `HookOut`: its Go return value, the resulting local
  resource data, the resulting store, and the trace of store operations in
  the order the hook performed them.
* A Go nil-pointer dereference (field access on a nil `*security.User`) is
  an explicit `Outcome.nilDeref` value rather than undefined behaviour.
-/

namespace NexusUserRole

/-- The `security.User` schema struct of the Go client. -/
structure User where
  userID : String
  firstName : String
  lastName : String
  emailAddress : String
  password : String
  status : String
  source : String
  roles : List String
  deriving DecidableEq

/-- The local resource data (`*schema.ResourceData`): the schema's fields plus
the resource id and the framework's change flag for the `roles` field. -/
structure ResourceData where
  id : String
  userid : String
  firstname : String
  lastname : String
  email : String
  password : String
  roles : List String
  status : String
  source : String
  rolesChanged : Bool
  deriving DecidableEq

/-- `d.SetId(v)`. -/
def ResourceData.setId (d : ResourceData) (v : String) : ResourceData :=
  { d with id := v }

/-- `d.Set("roles", v)`: updates the stored roles; writing a value different
from the current one makes `HasChange("roles")` report a change. -/
def ResourceData.setRoles (d : ResourceData) (v : List String) : ResourceData :=
  { d with roles := v, rolesChanged := d.rolesChanged || (v != d.roles) }

/-- Errors returned by the remote entity store (transport/auth failures). -/
inductive Err where
  | transport (msg : String)
  deriving DecidableEq

/-- The remote entity store behind `client.Security.User`, with injectable
failures for its two operations. -/
structure Store where
  users : List (String × User)
  failGet : Option Err
  failUpdate : Option Err
  deriving DecidableEq

/-- `client.Security.User.Get(key)`: returns the Go pair `(user, err)`;
a missing user is the not-found sentinel `(nil, nil)`. -/
def Store.getUser (s : Store) (k : String) : Option User × Option Err :=
  match s.failGet with
  | some e => (none, some e)
  | none =>
    match s.users.find? (fun p => p.1 == k) with
    | some p => (some p.2, none)
    | none => (none, none)

/-- `client.Security.User.Update(key, u)`: full-value replace of the stored
user; on failure the store is unchanged and the error is returned. -/
def Store.updateUser (s : Store) (k : String) (u : User) : Store × Option Err :=
  match s.failUpdate with
  | some e => (s, some e)
  | none => ({ s with users := (k, u) :: s.users.filter (fun p => !(p.1 == k)) }, none)

/-- One store operation performed by a hook, with its observed result. -/
inductive Event where
  | getUser (key : String) (result : Option User × Option Err)
  | updateUser (key : String) (u : User) (result : Option Err)
  deriving DecidableEq

/-- Result of running a hook: its Go return value, the local resource data and
store afterwards, and the store operations in the order they were issued. -/
structure HookOut (ρ : Type) where
  result : ρ
  rd : ResourceData
  store : Store
  events : List Event

/-- Go return value of the delete hook; `nilDeref` marks a nil-pointer
dereference (a Go panic), which the source can reach. -/
inductive Outcome where
  | ok
  | error (e : Err)
  | nilDeref
  deriving DecidableEq

/-- `getSecurityUserRoleFromResourceData`: builds the `security.User` from the
current resource data fields. -/
def getSecurityUserRoleFromResourceData (d : ResourceData) : User :=
  { userID := d.userid
    firstName := d.firstname
    lastName := d.lastname
    emailAddress := d.email
    password := d.password
    status := d.status
    source := d.source
    roles := d.roles }

/-- The block of `d.Set` calls in the read hook (email, firstname, lastname,
roles, status, userid, source), in source order. -/
def readSetFields (d : ResourceData) (u : User) : ResourceData :=
  let d := { d with email := u.emailAddress }
  let d := { d with firstname := u.firstName }
  let d := { d with lastname := u.lastName }
  let d := d.setRoles u.roles
  let d := { d with status := u.status }
  let d := { d with userid := u.userID }
  { d with source := u.source }

/-- `resourceSecurityUserRoleRead`: fetch the user; a get error is returned
as-is; a not-found clears the id (resource absent); otherwise the fields are
copied into the local resource data. -/
def resourceSecurityUserRoleRead (d : ResourceData) (s : Store) : HookOut (Option Err) :=
  match s.getUser d.id with
  | (u?, some e) => ⟨some e, d, s, [.getUser d.id (u?, some e)]⟩
  | (none, none) => ⟨none, d.setId "", s, [.getUser d.id (none, none)]⟩
  | (some u, none) => ⟨none, readSetFields d u, s, [.getUser d.id (some u, none)]⟩

/-- Modelled from the spec: `resourceSecurityUserRead`, the read hook of the
plain user resource that the create hook calls last, lives in a source file
that is not part of the reviewed sources. Per the spec all read hooks are 1:1
field mappings: fetch the entity, propagate a fetch error, treat not-found as
absent (clear the id) without error, otherwise copy the fields into local
state. -/
def resourceSecurityUserRead (d : ResourceData) (s : Store) : HookOut (Option Err) :=
  match s.getUser d.id with
  | (u?, some e) => ⟨some e, d, s, [.getUser d.id (u?, some e)]⟩
  | (none, none) => ⟨none, d.setId "", s, [.getUser d.id (none, none)]⟩
  | (some u, none) => ⟨none, readSetFields d u, s, [.getUser d.id (some u, none)]⟩

/-- `resourceSecurityUserRoleUpdate`: when the roles changed, build the user
from the current local resource data and write it to the store (returning a
write error as-is); then (and also when nothing changed) run the read hook. -/
def resourceSecurityUserRoleUpdate (d : ResourceData) (s : Store) : HookOut (Option Err) :=
  if d.rolesChanged then
    let user := getSecurityUserRoleFromResourceData d
    match s.updateUser d.id user with
    | (s1, some e) => ⟨some e, d, s1, [.updateUser d.id user (some e)]⟩
    | (s1, none) =>
      let out := resourceSecurityUserRoleRead d s1
      ⟨out.result, out.rd, out.store, .updateUser d.id user none :: out.events⟩
  else resourceSecurityUserRoleRead d s

/-- `resourceSecurityUserRoleCreate`: set the id from the userid, run the read
hook (which overwrites the local fields from the remote user when it exists),
build the user from the resulting resource data, write it back, set the id
from the written user, and finish with the user read hook. -/
def resourceSecurityUserRoleCreate (d : ResourceData) (s : Store) : HookOut (Option Err) :=
  let d1 := d.setId d.userid
  let r := resourceSecurityUserRoleRead d1 s
  match r.result with
  | some e => ⟨some e, r.rd, r.store, r.events⟩
  | none =>
    let user := getSecurityUserRoleFromResourceData r.rd
    match r.store.updateUser r.rd.id user with
    | (s2, some e) => ⟨some e, r.rd, s2, r.events ++ [.updateUser r.rd.id user (some e)]⟩
    | (s2, none) =>
      let d3 := r.rd.setId user.userID
      let out := resourceSecurityUserRead d3 s2
      ⟨out.result, out.rd, out.store, r.events ++ .updateUser r.rd.id user none :: out.events⟩

/-- The set-difference block of the delete hook (design name
`computeRemainderAfterRemoval`): keep exactly the members of `remote` that are
not members of `desired` (the `mb` map is membership in `desired`). -/
def computeRemainderAfterRemoval (desired remote : List String) : List String :=
  remote.filter (fun role => decide (role ∉ desired))

/-- `resourceSecurityUserRoleDelete`: fetch the user (propagating a get error);
the source then reads `apiUser.Roles` without a nil check, so the not-found
sentinel leads to a nil dereference; otherwise compute the remainder after
removing the locally managed roles, store it in the local resource data, run
the update hook to write it back, and clear the id on success. -/
def resourceSecurityUserRoleDelete (d : ResourceData) (s : Store) : HookOut Outcome :=
  match s.getUser d.id with
  | (u?, some e) => ⟨.error e, d, s, [.getUser d.id (u?, some e)]⟩
  | (none, none) => ⟨.nilDeref, d, s, [.getUser d.id (none, none)]⟩
  | (some apiUser, none) =>
    let stateUser := getSecurityUserRoleFromResourceData d
    let roles := computeRemainderAfterRemoval stateUser.roles apiUser.roles
    let d1 := d.setRoles roles
    let out := resourceSecurityUserRoleUpdate d1 s
    match out.result with
    | some e => ⟨.error e, out.rd, out.store, .getUser d.id (some apiUser, none) :: out.events⟩
    | none => ⟨.ok, out.rd.setId "", out.store, .getUser d.id (some apiUser, none) :: out.events⟩

/-- The comparison core of the exists hook (design name `computeExistence`):
false on a cardinality mismatch, checked first; otherwise every member of
`remote` must be a member of `desired` (the `exists` map is membership in
`desired`). -/
def computeExistence (desired remote : List String) : Bool :=
  if remote.length ≠ desired.length then false
  else remote.all (fun role => decide (role ∈ desired))

/-- `resourceSecurityUserRoleExists`, parametrised by the store's reply to the
get call (the Go pair `(apiUser, err)`): a nil user or a non-nil error yields
`(false, err)`; otherwise the comparison runs with the error value (then nil)
returned alongside. -/
def resourceSecurityUserRoleExists (d : ResourceData) (fetch : Option User × Option Err) :
    Bool × Option Err :=
  match fetch with
  | (_, some e) => (false, some e)
  | (none, none) => (false, none)
  | (some apiUser, none) =>
    let stateUser := getSecurityUserRoleFromResourceData d
    (computeExistence stateUser.roles apiUser.roles, none)

/-- C1: for every desired set `D` and remote collection `R`, the set-difference
block of the delete hook returns exactly `R` minus the members of `D`: a member
is in the result iff it is in `R` and not in `D`, and the foreign members pass
through unchanged (the result is a sublist of `R`). -/
theorem c1_remainder_is_set_difference (D R : List String) :
    (∀ x, x ∈ computeRemainderAfterRemoval D R ↔ x ∈ R ∧ x ∉ D) ∧
    (computeRemainderAfterRemoval D R).Sublist R := by
  refine ⟨fun x => ?_, List.filter_sublist R⟩
  simp [computeRemainderAfterRemoval, List.mem_filter]

lemma filter_self_idem (p : String → Bool) (l : List String) :
    (l.filter p).filter p = l.filter p := by
  induction l with
  | nil => rfl
  | cons a t ih =>
    cases hp : p a with
    | true => simp [List.filter_cons, hp, ih]
    | false => simp [List.filter_cons, hp, ih]

/-- C8: removal is idempotent: applying the set-difference block twice with the
same desired set yields the same result as applying it once. -/
theorem c8_remainder_idempotent (D R : List String) :
    computeRemainderAfterRemoval D (computeRemainderAfterRemoval D R) =
      computeRemainderAfterRemoval D R :=
  filter_self_idem _ R

lemma computeExistence_eq_true_iff (D R : List String) (hD : D.Nodup) (hR : R.Nodup) :
    computeExistence D R = true ↔ ∀ x, x ∈ D ↔ x ∈ R := by
  unfold computeExistence
  split
  · rename_i hlen
    simp only [Bool.false_eq_true, false_iff]
    intro hset
    apply hlen
    have hfin : R.toFinset = D.toFinset := by
      ext x
      simp only [List.mem_toFinset]
      exact ((hset x).symm)
    calc R.length = R.toFinset.card := (List.toFinset_card_of_nodup hR).symm
      _ = D.toFinset.card := by rw [hfin]
      _ = D.length := List.toFinset_card_of_nodup hD
  · rename_i hlen
    rw [not_ne_iff] at hlen
    rw [List.all_eq_true]
    constructor
    · intro hall x
      have hsub : R ⊆ D := fun y hy => of_decide_eq_true (hall y hy)
      have hsubF : R.toFinset ⊆ D.toFinset := by
        intro y hy
        rw [List.mem_toFinset] at hy ⊢
        exact hsub hy
      have hcard : D.toFinset.card ≤ R.toFinset.card := by
        rw [List.toFinset_card_of_nodup hR, List.toFinset_card_of_nodup hD, hlen]
      have heq : R.toFinset = D.toFinset := Finset.eq_of_subset_of_card_le hsubF hcard
      constructor
      · intro hxD
        have hx : x ∈ D.toFinset := List.mem_toFinset.mpr hxD
        rw [← heq] at hx
        exact List.mem_toFinset.mp hx
      · intro hxR
        exact hsub hxR
    · intro hset x hx
      exact decide_eq_true ((hset x).mpr hx)

/-- C2: for nodup (set-semantics) desired roles `D` and a present remote user
with nodup roles `R`, the exists hook returns true iff `D` and `R` are
set-equal (same members, order-independent; equal cardinality follows), and a
cardinality mismatch alone already yields false (it is the first check in
`computeExistence`, decided before any membership comparison). -/
theorem c2_exists_iff_set_equal (d : ResourceData) (u : User)
    (hD : d.roles.Nodup) (hR : u.roles.Nodup) :
    ((resourceSecurityUserRoleExists d (some u, none)).1 = true ↔
      ∀ x, x ∈ d.roles ↔ x ∈ u.roles) ∧
    (u.roles.length ≠ d.roles.length →
      (resourceSecurityUserRoleExists d (some u, none)).1 = false) := by
  have h1 : (resourceSecurityUserRoleExists d (some u, none)).1 =
      computeExistence d.roles u.roles := rfl
  constructor
  · rw [h1]
    exact computeExistence_eq_true_iff d.roles u.roles hD hR
  · intro hne
    rw [h1]
    unfold computeExistence
    rw [if_pos hne]

def c2d : ResourceData :=
  { id := "alice", userid := "alice", firstname := "", lastname := "", email := "",
    password := "", roles := ["admin"], status := "", source := "", rolesChanged := false }

def c2u : User :=
  { userID := "alice", firstName := "", lastName := "", emailAddress := "",
    password := "", status := "", source := "", roles := ["admin", "dev"] }

/-- Witness for C2: desired `{"admin"}` against present remote
`{"admin","dev"}` is a cardinality mismatch, so the exists hook says false. -/
theorem c2_exists_iff_set_equal_witness :
    (resourceSecurityUserRoleExists c2d (some c2u, none)).1 = false :=
  (c2_exists_iff_set_equal c2d c2u (by decide) (by decide)).2 (by decide)

/-- C6: for every desired set (every resource data), a not-found fetch result
`(nil, nil)` makes the exists hook return false with no error. -/
theorem c6_exists_not_found_false (d : ResourceData) :
    resourceSecurityUserRoleExists d (none, none) = (false, none) := rfl

/-- C9: on nodup role lists (set semantics), the comparison core of the exists
hook is symmetric in its two set arguments. -/
theorem c9_computeExistence_symm (A B : List String) (hA : A.Nodup) (hB : B.Nodup) :
    computeExistence A B = computeExistence B A := by
  have h1 := computeExistence_eq_true_iff A B hA hB
  have h2 := computeExistence_eq_true_iff B A hB hA
  cases hab : computeExistence A B with
  | true =>
    have hset := h1.mp hab
    exact (h2.mpr (fun x => (hset x).symm)).symm
  | false =>
    cases hba : computeExistence B A with
    | false => rfl
    | true =>
      exfalso
      have hset := h2.mp hba
      have hcontra : computeExistence A B = true := h1.mpr (fun x => (hset x).symm)
      rw [hab] at hcontra
      exact Bool.false_ne_true hcontra

/-- Witness for C9 at the concrete sets `{"admin"}` and `{"admin","dev"}`. -/
theorem c9_computeExistence_symm_witness :
    computeExistence ["admin"] ["admin", "dev"] =
      computeExistence ["admin", "dev"] ["admin"] :=
  c9_computeExistence_symm ["admin"] ["admin", "dev"] (by decide) (by decide)

/-- C10: whenever the get call behind the exists hook fails with a non-nil
error, the hook returns false together with that same error, and the hook can
only return true alongside a nil error. -/
theorem c10_exists_error_propagation :
    (∀ (d : ResourceData) (u? : Option User) (e : Err),
      resourceSecurityUserRoleExists d (u?, some e) = (false, some e)) ∧
    (∀ (d : ResourceData) (f : Option User × Option Err),
      (resourceSecurityUserRoleExists d f).1 = true →
      (resourceSecurityUserRoleExists d f).2 = none) := by
  constructor
  · intro d u? e
    cases u? <;> rfl
  · intro d f h
    obtain ⟨u?, e?⟩ := f
    cases u? <;> cases e? <;> simp_all [resourceSecurityUserRoleExists]

def c10d : ResourceData :=
  { id := "alice", userid := "alice", firstname := "", lastname := "", email := "",
    password := "", roles := ["admin"], status := "", source := "", rolesChanged := false }

def c10u : User :=
  { userID := "alice", firstName := "", lastName := "", emailAddress := "",
    password := "", status := "", source := "", roles := ["admin"] }

/-- Witness for C10: a failed get propagates its error with a false verdict,
and a true verdict (here on equal role sets) comes with a nil error. -/
theorem c10_exists_error_propagation_witness :
    resourceSecurityUserRoleExists c10d (none, some (Err.transport "boom")) =
      (false, some (Err.transport "boom")) ∧
    (resourceSecurityUserRoleExists c10d (some c10u, none)).2 = none :=
  ⟨c10_exists_error_propagation.1 c10d none (Err.transport "boom"),
   c10_exists_error_propagation.2 c10d (some c10u, none) (by decide)⟩

lemma read_found_eq (d : ResourceData) (s : Store) (u : User)
    (h : s.getUser d.id = (some u, none)) :
    resourceSecurityUserRoleRead d s =
      ⟨none, readSetFields d u, s, [.getUser d.id (some u, none)]⟩ := by
  unfold resourceSecurityUserRoleRead
  rw [h]

lemma read_geterr_eq (d : ResourceData) (s : Store) (e : Err)
    (h : s.failGet = some e) :
    resourceSecurityUserRoleRead d s =
      ⟨some e, d, s, [.getUser d.id (none, some e)]⟩ := by
  unfold resourceSecurityUserRoleRead Store.getUser
  rw [h]

lemma update_fail_eq (d : ResourceData) (s : Store) (e : Err)
    (h1 : d.rolesChanged = true) (h2 : s.failUpdate = some e) :
    resourceSecurityUserRoleUpdate d s =
      ⟨some e, d, s, [.updateUser d.id (getSecurityUserRoleFromResourceData d) (some e)]⟩ := by
  unfold resourceSecurityUserRoleUpdate
  rw [h1]
  unfold Store.updateUser
  rw [h2]
  rfl

def c3d : ResourceData :=
  { id := "alice", userid := "alice", firstname := "", lastname := "", email := "",
    password := "", roles := ["dev"], status := "", source := "", rolesChanged := true }

def c3u : User :=
  { userID := "alice", firstName := "", lastName := "", emailAddress := "",
    password := "", status := "", source := "", roles := ["admin", "qa"] }

def c3s : Store :=
  { users := [("alice", c3u)], failGet := none, failUpdate := none }

/-- Counterexample to C3: with the desired subset changed (`rolesChanged`),
the very first store operation of the update hook is the write, whose payload
is built from the locally cached roles `["dev"]`; the remote collection a
fresh read would have returned contains the foreign member `"qa"`, which is
absent from the written replacement — so the hook writes a full replacement
computed without re-reading the remote state. -/
theorem c3_update_counterexample :
    (resourceSecurityUserRoleUpdate c3d c3s).events.head? =
      some (Event.updateUser "alice" (getSecurityUserRoleFromResourceData c3d) none) ∧
    (getSecurityUserRoleFromResourceData c3d).roles = ["dev"] ∧
    c3s.getUser "alice" = (some c3u, none) ∧
    "qa" ∈ c3u.roles ∧
    "qa" ∉ (getSecurityUserRoleFromResourceData c3d).roles := by
  refine ⟨rfl, rfl, rfl, by decide, by decide⟩

/-- C3 (amended): when the desired subset changed, the update hook's first
store operation is the write of the user built from the locally stored
resource data; the remote state is re-read only after that write, so the
written replacement is computed without a fresh remote read. -/
theorem c3_update_writes_local_state_first (d : ResourceData) (s : Store)
    (h : d.rolesChanged = true) :
    (resourceSecurityUserRoleUpdate d s).events.head? =
      some (Event.updateUser d.id (getSecurityUserRoleFromResourceData d)
        (s.updateUser d.id (getSecurityUserRoleFromResourceData d)).2) := by
  unfold resourceSecurityUserRoleUpdate
  rw [h]
  rcases hsu : s.updateUser d.id (getSecurityUserRoleFromResourceData d) with ⟨s1, e?⟩
  cases e? <;> simp [hsu]

/-- Witness for C3 (amended) at the concrete update invocation of the
counterexample. -/
theorem c3_update_writes_local_state_first_witness :
    (resourceSecurityUserRoleUpdate c3d c3s).events.head? =
      some (Event.updateUser c3d.id (getSecurityUserRoleFromResourceData c3d)
        (c3s.updateUser c3d.id (getSecurityUserRoleFromResourceData c3d)).2) :=
  c3_update_writes_local_state_first c3d c3s (by decide)

def c4d : ResourceData :=
  { id := "", userid := "bob", firstname := "", lastname := "", email := "",
    password := "", roles := ["dev"], status := "", source := "", rolesChanged := false }

def c4u : User :=
  { userID := "bob", firstName := "", lastName := "", emailAddress := "",
    password := "", status := "", source := "", roles := ["admin"] }

def c4s : Store :=
  { users := [("bob", c4u)], failGet := none, failUpdate := none }

/-- Counterexample to C4: creating the resource with desired subset `["dev"]`
while the remote user `bob` already holds `["admin"]` writes back exactly
`["admin"]` — the read hook overwrote the declared roles before the write, so
the written replacement is not the union `{"admin","dev"}`: the desired member
`"dev"` is missing from it. -/
theorem c4_create_counterexample :
    (resourceSecurityUserRoleCreate c4d c4s).events[1]? =
      some (Event.updateUser "bob"
        (getSecurityUserRoleFromResourceData (readSetFields (c4d.setId "bob") c4u)) none) ∧
    (getSecurityUserRoleFromResourceData (readSetFields (c4d.setId "bob") c4u)).roles =
      ["admin"] ∧
    "dev" ∈ c4d.roles ∧
    "dev" ∉ (getSecurityUserRoleFromResourceData (readSetFields (c4d.setId "bob") c4u)).roles := by
  refine ⟨rfl, rfl, by decide, by decide⟩

/-- C4 (amended): whenever the remote user exists, the create hook performs
the get and then writes back the user assembled after the read overwrote the
local fields, whose role collection equals the fetched remote collection
(no union with the desired subset is computed). -/
theorem c4_create_writes_remote_roles (d : ResourceData) (s : Store) (u : User)
    (h : s.getUser d.userid = (some u, none)) :
    (resourceSecurityUserRoleCreate d s).events[1]? =
      some (Event.updateUser d.userid
        (getSecurityUserRoleFromResourceData (readSetFields (d.setId d.userid) u))
        (s.updateUser d.userid
          (getSecurityUserRoleFromResourceData (readSetFields (d.setId d.userid) u))).2) ∧
    (getSecurityUserRoleFromResourceData (readSetFields (d.setId d.userid) u)).roles =
      u.roles := by
  constructor
  · unfold resourceSecurityUserRoleCreate
    dsimp only
    have h' : s.getUser (d.setId d.userid).id = (some u, none) := h
    rw [read_found_eq (d.setId d.userid) s u h']
    dsimp only
    have hid2 : (readSetFields (d.setId d.userid) u).id = d.userid := rfl
    rw [hid2]
    rcases hsu : s.updateUser d.userid
        (getSecurityUserRoleFromResourceData (readSetFields (d.setId d.userid) u)) with ⟨s2, e?⟩
    cases e? <;> simp
  · rfl

/-- Witness for C4 (amended) at the concrete create invocation of the
counterexample. -/
theorem c4_create_writes_remote_roles_witness :
    (resourceSecurityUserRoleCreate c4d c4s).events[1]? =
      some (Event.updateUser c4d.userid
        (getSecurityUserRoleFromResourceData (readSetFields (c4d.setId c4d.userid) c4u))
        (c4s.updateUser c4d.userid
          (getSecurityUserRoleFromResourceData (readSetFields (c4d.setId c4d.userid) c4u))).2) ∧
    (getSecurityUserRoleFromResourceData (readSetFields (c4d.setId c4d.userid) c4u)).roles =
      c4u.roles :=
  c4_create_writes_remote_roles c4d c4s c4u (by decide)

def c5d : ResourceData :=
  { id := "ghost", userid := "ghost", firstname := "", lastname := "", email := "",
    password := "", roles := ["dev"], status := "", source := "", rolesChanged := false }

def c5s : Store :=
  { users := [], failGet := none, failUpdate := none }

/-- C5 (code bug): when the fetch inside the delete hook reports not-found
(nil user, nil error), the source reads `apiUser.Roles` without a nil check,
so the hook dereferences a nil pointer (a Go panic) instead of completing as a
no-op; no write is issued (the trace is the single get). -/
theorem c5_delete_not_found_crashes :
    (resourceSecurityUserRoleDelete c5d c5s).result = Outcome.nilDeref ∧
    (resourceSecurityUserRoleDelete c5d c5s).events = [Event.getUser "ghost" (none, none)] :=
  ⟨rfl, rfl⟩

def c7d : ResourceData :=
  { id := "alice", userid := "alice", firstname := "", lastname := "", email := "",
    password := "", roles := ["dev"], status := "", source := "", rolesChanged := false }

def c7u : User :=
  { userID := "alice", firstName := "", lastName := "", emailAddress := "",
    password := "", status := "", source := "", roles := ["admin", "dev"] }

def c7s : Store :=
  { users := [("alice", c7u)], failGet := none, failUpdate := some (Err.transport "boom") }

def c7dU : ResourceData :=
  { id := "alice", userid := "alice", firstname := "", lastname := "", email := "",
    password := "", roles := ["dev"], status := "", source := "", rolesChanged := true }

/-- Counterexample to C7: a delete whose write-back fails propagates the store
error, but the locally stored desired subset is not left unchanged — it was
already replaced by the foreign remainder (`["dev"]` became `["admin"]`)
before the failing write, a partial local-state commit. -/
theorem c7_delete_failure_counterexample :
    (resourceSecurityUserRoleDelete c7d c7s).result = Outcome.error (Err.transport "boom") ∧
    (resourceSecurityUserRoleDelete c7d c7s).rd.roles = ["admin"] ∧
    c7d.roles = ["dev"] :=
  ⟨rfl, rfl, rfl⟩

/-- C7 (amended): a failed store operation propagates its error unmodified in
all three mutating hooks; the update hook then leaves both the local resource
data and the store unchanged, but the delete hook has already replaced the
locally stored roles with the foreign remainder before its failing write, so a
failed delete leaves that remainder committed in local state rather than the
original desired subset; likewise a failed create get leaves the store
untouched while its error is returned as-is, and a failed create write runs
after the read overwrote the local roles with the remote collection, so those
remote roles remain committed locally. -/
theorem c7_error_propagation_and_delete_partial_commit :
    (∀ (d : ResourceData) (s : Store) (e : Err),
      d.rolesChanged = true → s.failUpdate = some e →
      (resourceSecurityUserRoleUpdate d s).result = some e ∧
      (resourceSecurityUserRoleUpdate d s).rd = d ∧
      (resourceSecurityUserRoleUpdate d s).store = s) ∧
    (∀ (d : ResourceData) (s : Store) (u : User) (e : Err),
      s.getUser d.id = (some u, none) → s.failUpdate = some e →
      (d.setRoles (computeRemainderAfterRemoval d.roles u.roles)).rolesChanged = true →
      (resourceSecurityUserRoleDelete d s).result = Outcome.error e ∧
      (resourceSecurityUserRoleDelete d s).rd.roles =
        computeRemainderAfterRemoval d.roles u.roles) ∧
    (∀ (d : ResourceData) (s : Store) (e : Err),
      s.failGet = some e →
      (resourceSecurityUserRoleCreate d s).result = some e ∧
      (resourceSecurityUserRoleCreate d s).store = s) ∧
    (∀ (d : ResourceData) (s : Store) (u : User) (e : Err),
      s.getUser d.userid = (some u, none) → s.failUpdate = some e →
      (resourceSecurityUserRoleCreate d s).result = some e ∧
      (resourceSecurityUserRoleCreate d s).rd.roles = u.roles) := by
  refine ⟨?_, ?_, ?_, ?_⟩
  · intro d s e h1 h2
    rw [update_fail_eq d s e h1 h2]
    exact ⟨rfl, rfl, rfl⟩
  · intro d s u e hget h2 h3
    unfold resourceSecurityUserRoleDelete
    rw [hget]
    dsimp only
    have hroles : (getSecurityUserRoleFromResourceData d).roles = d.roles := rfl
    rw [hroles]
    rw [update_fail_eq (d.setRoles (computeRemainderAfterRemoval d.roles u.roles)) s e h3 h2]
    exact ⟨rfl, rfl⟩
  · intro d s e h
    unfold resourceSecurityUserRoleCreate
    dsimp only
    rw [read_geterr_eq (d.setId d.userid) s e h]
    exact ⟨rfl, rfl⟩
  · intro d s u e hget h2
    unfold resourceSecurityUserRoleCreate
    dsimp only
    have h' : s.getUser (d.setId d.userid).id = (some u, none) := hget
    rw [read_found_eq (d.setId d.userid) s u h']
    dsimp only
    unfold Store.updateUser
    rw [h2]
    exact ⟨rfl, rfl⟩

def c7sG : Store :=
  { users := [("alice", c7u)], failGet := some (Err.transport "down"), failUpdate := none }

/-- Witness for C7 (amended) at concrete failing invocations: the update hook
leaves everything unchanged, the delete hook ends with `["admin"]` stored
locally in place of the original `["dev"]`, a create whose get fails returns
that error with the store untouched, and a create whose write fails has the
remote roles `["admin","dev"]` already committed locally. -/
theorem c7_error_propagation_and_delete_partial_commit_witness :
    ((resourceSecurityUserRoleUpdate c7dU c7s).result = some (Err.transport "boom") ∧
     (resourceSecurityUserRoleUpdate c7dU c7s).rd = c7dU ∧
     (resourceSecurityUserRoleUpdate c7dU c7s).store = c7s) ∧
    ((resourceSecurityUserRoleDelete c7d c7s).result = Outcome.error (Err.transport "boom") ∧
     (resourceSecurityUserRoleDelete c7d c7s).rd.roles =
       computeRemainderAfterRemoval c7d.roles c7u.roles) ∧
    ((resourceSecurityUserRoleCreate c7d c7sG).result = some (Err.transport "down") ∧
     (resourceSecurityUserRoleCreate c7d c7sG).store = c7sG) ∧
    ((resourceSecurityUserRoleCreate c7d c7s).result = some (Err.transport "boom") ∧
     (resourceSecurityUserRoleCreate c7d c7s).rd.roles = c7u.roles) :=
  ⟨c7_error_propagation_and_delete_partial_commit.1 c7dU c7s (Err.transport "boom")
      (by decide) (by decide),
   c7_error_propagation_and_delete_partial_commit.2.1 c7d c7s c7u (Err.transport "boom")
      (by decide) (by decide) (by decide),
   c7_error_propagation_and_delete_partial_commit.2.2.1 c7d c7sG (Err.transport "down")
      (by decide),
   c7_error_propagation_and_delete_partial_commit.2.2.2 c7d c7s c7u (Err.transport "boom")
      (by decide) (by decide)⟩

end NexusUserRole
